import Mathlib

/-!
Verification of the ostree-container repository: a shallow embedding of the
tar/OCI export and import code (src/lib/src/client.rs, src/lib/src/buildoci.rs,
src/lib/src/oci.rs) together with theorems settling the frozen claims about it.
Paths are modelled as lists of UTF-8 components, byte buffers as lists of
naturals, and every fallible operation returns an Except value carrying the
error message built by the source.
-/

set_option autoImplicit false
set_option maxRecDepth 100000

deriving instance DecidableEq for Except

namespace OstreeContainer

/-! ## Basic helpers -/

/-- Mirrors the ok_or_else combinators used throughout client.rs: turn an
optional value into a Result with the given error message. -/
def okOr {α : Type} (o : Option α) (msg : String) : Except String α :=
  match o with
  | some a => .ok a
  | none => .error msg

/-- True exactly on errors of a Result. -/
def isErr {α : Type} (x : Except String α) : Bool :=
  match x with
  | .error _ => true
  | .ok _ => false

/-! ## Media types and layer selection (client.rs, oci.rs) -/

/-- Modelled from the spec: the constant super::oci::DOCKER_TYPE_LAYER is
referenced by client.rs but its defining module is not under src; the spec
describes it as the Docker equivalent of the gzipped-tar OCI layer type. -/
def DOCKER_TYPE_LAYER : String := "application/vnd.docker.image.rootfs.diff.tar.gzip"

/-- Constant from the external oci-distribution crate, named in client.rs. -/
def IMAGE_LAYER_GZIP_MEDIA_TYPE : String := "application/vnd.oci.image.layer.v1.tar+gzip"

def OCI_TYPE_LAYER : String := "application/vnd.oci.image.layer.v1.tar+gzip"

/-- The fields of oci_distribution::manifest::OciDescriptor used by client.rs. -/
structure OciDescriptor where
  media_type : String
  digest : String
deriving DecidableEq, Repr

/-- Embeds fetch_layer_descriptor from src/lib/src/client.rs: the manifest has
already been pulled, yielding its digest and its list of layer descriptors. -/
def fetch_layer_descriptor (digest : String) (manifest_layers : List OciDescriptor) :
    Except String (String × OciDescriptor) :=
  let layers := manifest_layers.filter fun layer =>
    layer.media_type == DOCKER_TYPE_LAYER || layer.media_type == IMAGE_LAYER_GZIP_MEDIA_TYPE
  let n := layers.length
  match layers.get? 1 with
  | some layer =>
      if n > 1 then .error ("Expected 1 layer, found " ++ toString n)
      else .ok (digest, layer)
  | none => .error "No layers found"

/-! ## Checksum validation (client.rs) -/

/-- The character class of matches!(c, '0'..='9' | 'a'..='f'). -/
def isHexLower (c : Char) : Bool :=
  ('0' ≤ c && c ≤ '9') || ('a' ≤ c && c ≤ 'f')

/-- Embeds validate_sha256 from src/lib/src/client.rs. -/
def validate_sha256 (s : String) : Except String Unit :=
  if s.length ≠ 64 then .error ("Invalid sha256 checksum (len) " ++ s)
  else if ¬ (s.toList.all isHexLower) then .error ("Invalid sha256 checksum " ++ s)
  else .ok ()

/-- The regular expression of the spec, as a boolean predicate: 64 lowercase
hex characters. -/
def sha256Matches (s : String) : Bool :=
  s.length == 64 && s.toList.all isHexLower

/-! ## Path mapping (buildoci.rs) -/

/-- Split a character list on the path separator. -/
def splitSlashAux : List Char → List Char → List String
  | [], acc => [String.mk acc.reverse]
  | c :: rest, acc =>
    if c = '/' then String.mk acc.reverse :: splitSlashAux rest []
    else splitSlashAux rest (c :: acc)

/-- Decompose a path string into its components the way Rust Path iteration
does: split on the separator, drop empty segments, keep only a leading
current-directory component. -/
def pathComponents (s : String) : List String :=
  let parts := (splitSlashAux s.toList []).filter (fun c => c ≠ "")
  match parts with
  | "." :: rest => "." :: rest.filter (fun c => c ≠ ".")
  | other => other.filter (fun c => c ≠ ".")

/-- The first n characters of a string (the checksums involved are ASCII, so
this coincides with the Rust byte-based split). -/
def strTake (s : String) (n : Nat) : String := String.mk (s.toList.take n)

/-- All but the first n characters of a string. -/
def strDrop (s : String) (n : Nat) : String := String.mk (s.toList.drop n)

/-- Embeds map_path from src/lib/src/buildoci.rs: a component-wise
"./usr/etc" head is rewritten to "./etc", anything else is returned as is. -/
def map_path (p : List String) : List String :=
  match p with
  | "." :: "usr" :: "etc" :: rest => "." :: "etc" :: rest
  | other => other

/-! ## Tar entries

A tar entry as the importer sees it: the header carries the entry type, the
declared size and an optional hardlink or symlink target; the body is the
byte sequence the entry yields when read. Paths and link targets are lists
of UTF-8 components. -/

inductive EntryType
  | Regular
  | Symlink
  | Directory
  | Link
  | Other
deriving DecidableEq, Repr

structure TarEntry where
  path : List String
  entry_type : EntryType
  size : Nat
  content : List Nat
  link_name : Option (List String)
deriving DecidableEq, Repr

/-! ## File-name stem and extension

The importer takes apart the final path component with the Rust Path
extension and file_stem operations: the extension is the part after the last
dot, except that a name whose only dot is a leading one has no extension. -/

/-- Split a character list at its last dot, returning the parts before and
after it, or none when no dot occurs. -/
def rsplitDot : List Char → Option (List Char × List Char)
  | [] => none
  | c :: rest =>
    match rsplitDot rest with
    | some (b, a) => some (c :: b, a)
    | none => if c = '.' then some ([], rest) else none

/-- The pair (file_stem, extension) of a file name, following the Rust Path
rules: no dot or only a leading dot means no extension. -/
def file_stem_ext (name : String) : String × Option String :=
  match rsplitDot name.toList with
  | none => (name, none)
  | some ([], _) => (name, none)
  | some (b, a) => (String.mk b, some (String.mk a))

def extensionOf (name : String) : Option String := (file_stem_ext name).2

def fileStemOf (name : String) : Option String :=
  if name = "" then none else some (file_stem_ext name).1

/-! ## OSTree object model (client.rs) -/

def OSTREE_COMMIT_FORMAT : String := "(a{sv}aya(say)sstayay)"
def OSTREE_DIRTREE_FORMAT : String := "(a(say)a(sayay))"
def OSTREE_DIRMETA_FORMAT : String := "(uuua(ayay))"
def OSTREE_XATTRS_FORMAT : String := "a(ayay)"

def MAX_XATTR_SIZE : Nat := 1024 * 1024

/-- The ostree object types handled by the importer and exporter. -/
inductive ObjectType
  | File
  | DirTree
  | DirMeta
  | Commit
deriving DecidableEq, Repr

def ObjectType.toStr : ObjectType → String
  | .File => "file"
  | .DirTree => "dirtree"
  | .DirMeta => "dirmeta"
  | .Commit => "commit"

/-- Modelled from the spec: crate::variant_utils is referenced by client.rs
but its source is not under src; per the spec an object body is wrapped as a
variant of the object type's signature, so a variant is its signature string
together with the raw bytes. -/
structure GVariant where
  vtype : String
  bytes : List Nat
deriving DecidableEq, Repr

def variant_new_from_bytes (vtype : String) (bytes : List Nat) : GVariant :=
  ⟨vtype, bytes⟩

/-- Embeds format_for_objtype from src/lib/src/client.rs. -/
def format_for_objtype (t : ObjectType) : Option String :=
  match t with
  | .DirTree => some OSTREE_DIRTREE_FORMAT
  | .DirMeta => some OSTREE_DIRMETA_FORMAT
  | .Commit => some OSTREE_COMMIT_FORMAT
  | _ => none

/-- Embeds objtype_from_string from src/lib/src/client.rs. -/
def objtype_from_string (t : String) : Option ObjectType :=
  match t with
  | "commit" => some ObjectType.Commit
  | "dirtree" => some ObjectType.DirTree
  | "dirmeta" => some ObjectType.DirMeta
  | "file" => some ObjectType.File
  | _ => none

/-- Embeds validate_metadata_header from src/lib/src/client.rs. -/
def validate_metadata_header (entry : TarEntry) (desc : String) : Except String Nat :=
  if entry.entry_type ≠ .Regular then
    .error ("Invalid non-regular metadata object " ++ desc)
  else
    let size := entry.size
    let max_size := 10 * 1024 * 1024
    if size > max_size then
      .error ("object of size " ++ toString size ++ " exceeds " ++ toString max_size ++ " bytes")
    else .ok size

/-- The gio file types produced by header_to_gfileinfo. -/
inductive GFileType
  | Regular
  | SymbolicLink
deriving DecidableEq, Repr

structure GFileInfo where
  file_type : GFileType
  size : Nat
  symlink_target : Option (List String)
deriving DecidableEq, Repr

/-- Embeds header_to_gfileinfo from src/lib/src/client.rs. -/
def header_to_gfileinfo (entry : TarEntry) : Except String GFileInfo :=
  match entry.entry_type with
  | .Regular => .ok ⟨.Regular, entry.size, none⟩
  | .Symlink =>
      match entry.link_name with
      | none => .error "Invalid symlink"
      | some target => .ok ⟨.SymbolicLink, 0, some target⟩
  | _ => .error "Invalid tar type"

/-- Embeds entry_to_variant from src/lib/src/client.rs: validate the header,
read the body, wrap it as a variant of the requested signature. -/
def entry_to_variant (entry : TarEntry) (vtype : String) (desc : String) :
    Except String GVariant := do
  let _size ← validate_metadata_header entry desc
  pure (variant_new_from_bytes vtype entry.content)

/-! ## The importer state machine (client.rs) -/

inductive ImportState
  | Initial
  | Importing (checksum : String)
deriving DecidableEq, Repr

/-- The Importer of client.rs. The Rust value holds a borrowed repo on which
write_metadata is called imperatively; here those calls are recorded in
order in the written field and applied to the repo by import_tarball. -/
structure Importer where
  state : ImportState
  xattrs : List (String × GVariant)
  next_xattrs : Option (String × String)
  written : List (ObjectType × String × GVariant)
deriving DecidableEq, Repr

def initImporter : Importer :=
  { state := .Initial, xattrs := [], next_xattrs := none, written := [] }

/-- Embeds Importer::import_metadata from src/lib/src/client.rs. The source
asserts nothing here beyond what the variant wrapping checks. -/
def Importer.import_metadata (imp : Importer) (entry : TarEntry) (checksum : String)
    (objtype : ObjectType) : Except String Importer := do
  let vtype ← okOr (format_for_objtype objtype) ("Unhandled objtype " ++ objtype.toStr)
  let v ← entry_to_variant entry vtype checksum
  pure { imp with written := imp.written ++ [(objtype, checksum, v)] }

/-- Embeds Importer::import_commit from src/lib/src/client.rs; the source
asserts the state is Initial, which every call site establishes. -/
def Importer.import_commit (imp : Importer) (entry : TarEntry) (checksum : String) :
    Except String Importer := do
  let imp ← imp.import_metadata entry checksum .Commit
  pure { imp with state := .Importing checksum }

/-- Embeds Importer::import_content_object from src/lib/src/client.rs: the
draft builds the file info and then returns without writing anything. -/
def Importer.import_content_object (imp : Importer) (entry : TarEntry)
    (checksum : String) (xattrs : Option GVariant) : Except String Importer := do
  let _i ← header_to_gfileinfo entry
  pure imp

/-- Embeds Importer::import_xattr_ref from src/lib/src/client.rs. -/
def Importer.import_xattr_ref (imp : Importer) (entry : TarEntry) (target : String) :
    Except String Importer := do
  if entry.entry_type ≠ .Link then
    throw ("Non-hardlink xattr reference found for " ++ target)
  let lnk ← okOr entry.link_name ("No xattr link content for " ++ target)
  let xattr_target ← okOr lnk.getLast? ("Invalid xattr link " ++ target)
  let _ ← validate_sha256 xattr_target
  pure { imp with next_xattrs := some (target, xattr_target) }

/-- Embeds Importer::import_xattrs from src/lib/src/client.rs. -/
def Importer.import_xattrs (imp : Importer) (entry : TarEntry) :
    Except String Importer :=
  match imp.state with
  | .Initial => .error "Found xattr object \x7b\x7d before commit"
  | .Importing _ =>
    match entry.path.getLast? with
    | none => .error "Invalid xattr dir"
    | some name =>
      match validate_sha256 name with
      | .error e => .error e
      | .ok _ =>
        if entry.entry_type ≠ .Regular then
          .error "Invalid xattr entry of type"
        else if entry.size > MAX_XATTR_SIZE then
          .error ("Invalid xattr size " ++ toString entry.size)
        else
          .ok { imp with
                  xattrs := (name, variant_new_from_bytes OSTREE_XATTRS_FORMAT entry.content)
                    :: imp.xattrs }

/-- Embeds Importer::import_object from src/lib/src/client.rs, including the
order of its final match arms. -/
def Importer.import_object (imp0 : Importer) (entry : TarEntry) (path : List String) :
    Except String Importer := do
  let parentname ← okOr path.dropLast.getLast? "Invalid path (no parent)"
  if parentname.length ≠ 2 then
    throw ("Invalid checksum parent " ++ parentname)
  let name0 ← okOr path.getLast? "Invalid path (dir)"
  let objtype0 ← okOr (extensionOf name0) "Invalid objpath"
  let is_xattrs := objtype0 == "xattrs"
  let xattrs := imp0.next_xattrs
  let imp := { imp0 with next_xattrs := none }
  let (name, objtype) ←
    if is_xattrs then do
      if xattrs.isSome then
        throw "Found multiple xattrs"
      let name ← okOr (fileStemOf name0) "Invalid xattrs"
      let objtype ← okOr (extensionOf name) "Invalid objpath"
      pure (name, objtype)
    else
      pure (name0, objtype0)
  let checksum_rest ← okOr (fileStemOf name) "Invalid objpath"
  if checksum_rest.length ≠ 62 then
    throw ("Invalid checksum rest " ++ name)
  let checksum := parentname ++ checksum_rest
  let _ ← validate_sha256 checksum
  let xattr_ref ←
    match xattrs with
    | some (xattr_target, xattr_objref) =>
      if xattr_target ≠ checksum then
        throw ("Found object " ++ checksum ++ " but previous xattr was " ++ xattr_target)
      else
        match imp.xattrs.lookup xattr_objref with
        | none => throw ("Failed to find xattr " ++ xattr_objref)
        | some v => pure (some v)
    | none => pure none
  let objtype ← okOr (objtype_from_string objtype) ("Invalid object type " ++ objtype)
  match objtype, is_xattrs, imp.state with
  | .Commit, _, .Initial => imp.import_commit entry checksum
  | .File, true, .Importing _ => imp.import_xattr_ref entry checksum
  | .File, false, .Importing _ => imp.import_content_object entry checksum xattr_ref
  | ot, false, .Importing _ => imp.import_metadata entry checksum ot
  | o, _, .Initial => throw ("Found content object " ++ o.toStr ++ " before commit")
  | .Commit, _, .Importing c => throw ("Found multiple commit objects; original: " ++ c)
  | ot, true, _ => throw ("Found xattrs for non-file object type " ++ ot.toStr)

/-! ## The destination repository and import_tarball (client.rs)

The ostree repo is modelled by its transaction flags, the metadata writes
staged in the open transaction, the writes published by a committed
transaction, and its refs. The three transaction calls used by client.rs are
prepare_transaction, commit_transaction and abort_transaction; aborting when
no transaction is open is the no-op the Drop impl relies on. -/

structure Repo where
  txnOpen : Bool
  txnCommitted : Bool
  txnAborted : Bool
  staged : List (ObjectType × String × GVariant)
  committed : List (ObjectType × String × GVariant)
  refs : List (String × String)
deriving DecidableEq, Repr

def emptyRepo : Repo :=
  { txnOpen := false, txnCommitted := false, txnAborted := false,
    staged := [], committed := [], refs := [] }

def prepare_transaction (r : Repo) : Repo := { r with txnOpen := true }

def commit_transaction (r : Repo) : Repo :=
  { r with txnOpen := false, txnCommitted := true,
           staged := [], committed := r.committed ++ r.staged }

def abort_transaction (r : Repo) : Repo :=
  if r.txnOpen then
    { r with txnOpen := false, txnAborted := true, staged := [] }
  else r

/-- Stage the write_metadata calls the importer issued into the open
transaction, in order. -/
def stage_writes (r : Repo) (ws : List (ObjectType × String × GVariant)) : Repo :=
  { r with staged := r.staged ++ ws }

/-- Strip the sysroot/ostree/repo tar prefix, componentwise. -/
def stripSysrootRepo (p : List String) : Option (List String) :=
  match p with
  | "sysroot" :: "ostree" :: "repo" :: rest => some rest
  | _ => none

/-- The body of the entry loop of import_tarball from src/lib/src/client.rs:
skip directories, skip entries outside sysroot/ostree/repo, dispatch objects
and xattr blobs. -/
def processEntry (imp : Importer) (entry : TarEntry) : Except String Importer :=
  if entry.entry_type = .Directory then .ok imp
  else
    match stripSysrootRepo entry.path with
    | none => .ok imp
    | some path =>
      match path with
      | "objects" :: p => imp.import_object entry p
      | "xattrs" :: _ => imp.import_xattrs entry
      | _ => .ok imp

/-- Run the entry loop; an error stops the loop and reports the importer as
it stood when the failing entry was reached. -/
def runEntries : Importer → List TarEntry → Importer × Option String
  | imp, [] => (imp, none)
  | imp, e :: rest =>
    match processEntry imp e with
    | .ok imp' => runEntries imp' rest
    | .error msg => (imp, some msg)

/-- Embeds import_tarball from src/lib/src/client.rs together with
Importer::commit and the Drop impl: prepare the transaction, run the entry
loop, and on loop success first commit the transaction and only then check
that a commit object was seen; every exit path then runs the Drop abort,
which does nothing once the transaction is closed. -/
def import_tarball (repo0 : Repo) (entries : List TarEntry) :
    Except String String × Repo :=
  let repo := prepare_transaction repo0
  match runEntries initImporter entries with
  | (imp, some e) => (.error e, abort_transaction (stage_writes repo imp.written))
  | (imp, none) =>
    let repo := commit_transaction (stage_writes repo imp.written)
    match imp.state with
    | .Importing c => (.ok c, abort_transaction repo)
    | .Initial => (.error "Failed to find a commit object to import", abort_transaction repo)

/-! ## The exporter side: metadata objects to tar (buildoci.rs) -/

/-- A tar entry as the exporter emits it: path string, ownership and mode
from the header, and the body bytes. -/
structure TarOut where
  path : String
  uid : Nat
  gid : Nat
  mode : Nat
  size : Nat
  data : List Nat
deriving DecidableEq, Repr

/-- The OstreeMetadataWriter of buildoci.rs: the tar builder it appends to is
modelled by the list of entries emitted so far. -/
structure OstreeMetadataWriter where
  entries : List TarOut
  wrote_dirtree : List String
  wrote_dirmeta : List String
deriving DecidableEq, Repr

def emptyMetadataWriter : OstreeMetadataWriter := ⟨[], [], []⟩

/-- Embeds OstreeMetadataWriter::append from src/lib/src/buildoci.rs: dedup
dirtree and dirmeta objects, then emit the object under the path built from
the split checksum; the source panics on any other object type. -/
def OstreeMetadataWriter.append (w : OstreeMetadataWriter) (objtype : ObjectType)
    (checksum : String) (v : GVariant) : Except String OstreeMetadataWriter := do
  let w ←
    match objtype with
    | .Commit => pure w
    | .DirTree =>
      if w.wrote_dirtree.contains checksum then
        return w
      else
        pure { w with wrote_dirtree := checksum :: w.wrote_dirtree }
    | .DirMeta =>
      if w.wrote_dirmeta.contains checksum then
        return w
      else
        pure { w with wrote_dirmeta := checksum :: w.wrote_dirmeta }
    | o => throw ("Unexpected object type: " ++ o.toStr)
  let first := strTake checksum 2
  let rest := strDrop checksum 2
  let path := "./ostree/repo/objects/" ++ first ++ "/" ++ rest
  let data := v.bytes
  pure { w with entries := w.entries ++
          [{ path := path, uid := 0, gid := 0, mode := 0o644,
             size := data.length, data := data }] }

/-- Lowercase hex digit. -/
def hexDigitChar (n : Nat) : Char :=
  if n < 10 then Char.ofNat (48 + n) else Char.ofNat (87 + n)

/-- The Rust format string used for the placeholder directories renders a
byte as 0x followed by two lowercase hex digits. -/
def fmtHashHex04 (d : Nat) : String :=
  String.mk ['0', 'x', hexDigitChar (d / 16 % 16), hexDigitChar (d % 16)]

/-- Embeds the placeholder-directory loop at the head of
ostree_metadata_to_tar in src/lib/src/buildoci.rs: the loop runs for d in
the half-open range 0..0xFF and appends an empty entry per iteration. -/
def pre_created_object_dirs : List TarOut :=
  (List.range 0xFF).map fun d =>
    { path := "./ostree/repo/objects/" ++ fmtHashHex04 d,
      uid := 0, gid := 0, mode := 0, size := 0, data := [] }

/-! ## Blob and layer writers (oci.rs)

A SHA-256 hasher is modelled by the byte sequence fed to it; a digest is
identified with the byte sequence it digests, so that two digests agree
exactly when the underlying hashers were fed the same bytes. Gzip is an
external primitive: each write step is parameterised by the bytes the
encoder happens to emit into its output buffer for that input. -/

structure Hasher where
  fed : List Nat
deriving DecidableEq, Repr

def Hasher.new : Hasher := ⟨[]⟩

def Hasher.update (h : Hasher) (buf : List Nat) : Hasher := ⟨h.fed ++ buf⟩

/-- A completed blob: the byte sequence whose SHA-256 is its digest, and its
size on disk. -/
structure OciBlob where
  sha256_fed : List Nat
  size : Nat
deriving DecidableEq, Repr

/-- A completed layer: the blob plus the byte sequence whose SHA-256 is the
uncompressed digest. -/
structure OciLayer where
  blob : OciBlob
  uncompressed_fed : List Nat
deriving DecidableEq, Repr

structure BlobWriter where
  hash : Hasher
  target_written : List Nat
  size : Nat
deriving DecidableEq, Repr

def BlobWriter.new : BlobWriter := ⟨Hasher.new, [], 0⟩

/-- Embeds the Write impl of BlobWriter from src/lib/src/oci.rs: update the
hasher with the input, append it to the temp file, advance the size. -/
def BlobWriter.write (bw : BlobWriter) (srcbuf : List Nat) : BlobWriter :=
  { hash := bw.hash.update srcbuf,
    target_written := bw.target_written ++ srcbuf,
    size := bw.size + srcbuf.length }

/-- Embeds BlobWriter::complete from src/lib/src/oci.rs. -/
def BlobWriter.complete (bw : BlobWriter) : OciBlob :=
  ⟨bw.hash.fed, bw.size⟩

structure LayerWriter where
  bw : BlobWriter
  uncompressed_hash : Hasher
  compressor_fed : List Nat
deriving DecidableEq, Repr

def LayerWriter.new : LayerWriter := ⟨BlobWriter.new, Hasher.new, []⟩

/-- Embeds the Write impl of LayerWriter from src/lib/src/oci.rs: the input
goes into the gzip encoder, whose freshly emitted bytes are forwarded to the
inner blob writer; emitted stands for those bytes. The uncompressed hasher
is carried through unchanged, exactly as in the source. -/
def LayerWriter.write (w : LayerWriter) (srcbuf emitted : List Nat) : LayerWriter :=
  { bw := w.bw.write emitted,
    uncompressed_hash := w.uncompressed_hash,
    compressor_fed := w.compressor_fed ++ srcbuf }

/-- Embeds LayerWriter::complete from src/lib/src/oci.rs: flush the encoder
(finalEmitted stands for the bytes that flushing produces), forward them to
the blob writer, complete the blob, and read off both digests. -/
def LayerWriter.complete (w : LayerWriter) (finalEmitted : List Nat) : OciLayer :=
  let bw := w.bw.write finalEmitted
  { blob := bw.complete, uncompressed_fed := w.uncompressed_hash.fed }

def layerWriteAll (w : LayerWriter) (writes : List (List Nat × List Nat)) : LayerWriter :=
  writes.foldl (fun w p => w.write p.1 p.2) w

/-- The parts of the image config and manifest that OciWriter::complete
builds from the root layer. -/
structure ImageRecords where
  config_diff_ids_fed : List (List Nat)
  manifest_layer_media_type : String
  manifest_layer_size : Nat
  manifest_layer_digest_fed : List Nat
deriving DecidableEq, Repr

/-- Embeds the layer-dependent fields of OciWriter::complete from
src/lib/src/oci.rs: the config lists one diff_id, sha256 of the bytes fed to
the uncompressed hasher, and the manifest carries the blob digest and size. -/
def ociWriterComplete (rootfs_blob : OciLayer) : ImageRecords :=
  { config_diff_ids_fed := [rootfs_blob.uncompressed_fed],
    manifest_layer_media_type := OCI_TYPE_LAYER,
    manifest_layer_size := rootfs_blob.blob.size,
    manifest_layer_digest_fed := rootfs_blob.blob.sha256_fed }

/-! ## Concrete fixtures -/

def rest0 : String := String.mk (List.replicate 62 '0')
def rest1 : String := String.mk (List.replicate 62 '1')
def rest2 : String := String.mk (List.replicate 62 '2')

def csum1 : String := "aa" ++ rest0
def csum2 : String := "bb" ++ rest1
def csum3 : String := "cc" ++ rest2

def commitEntry1 : TarEntry :=
  { path := ["sysroot", "ostree", "repo", "objects", "aa", rest0 ++ ".commit"],
    entry_type := .Regular, size := 2, content := [1, 2], link_name := none }

def commitEntry2 : TarEntry :=
  { path := ["sysroot", "ostree", "repo", "objects", "bb", rest1 ++ ".commit"],
    entry_type := .Regular, size := 2, content := [3, 4], link_name := none }

def dirtreeEntry3 : TarEntry :=
  { path := ["sysroot", "ostree", "repo", "objects", "cc", rest2 ++ ".dirtree"],
    entry_type := .Regular, size := 2, content := [5, 6], link_name := none }

def commitmetaEntry3 : TarEntry :=
  { path := ["sysroot", "ostree", "repo", "objects", "cc", rest2 ++ ".commitmeta"],
    entry_type := .Regular, size := 2, content := [7, 8], link_name := none }

def importingImporter : Importer :=
  { state := .Importing csum1, xattrs := [], next_xattrs := none, written := [] }

/-! ## Claim theorems -/

/-- Claim C1: the claim says fetch_layer_descriptor succeeds if and only if
exactly one gzipped-tar layer remains after filtering, returning that layer.
The source instead selects nth(1), so it fails on every manifest: a manifest
whose filtered layer list has exactly one element yields the error No layers
found, and no input at all can make it succeed. -/
theorem fetch_layer_descriptor_never_succeeds :
    (∀ (digest : String) (layers : List OciDescriptor),
        isErr (fetch_layer_descriptor digest layers) = true) ∧
    fetch_layer_descriptor "sha256:m"
        [{ media_type := IMAGE_LAYER_GZIP_MEDIA_TYPE, digest := "sha256:l" }] =
      .error "No layers found" := by
  constructor
  · intro digest layers
    rcases h : layers.filter (fun layer =>
        layer.media_type == DOCKER_TYPE_LAYER
          || layer.media_type == IMAGE_LAYER_GZIP_MEDIA_TYPE) with _ | ⟨a, _ | ⟨b, t⟩⟩ <;>
      simp [fetch_layer_descriptor, h, isErr]
  · rfl

/-- Claim C3: the first commit in state Initial is written and moves the
importer to Importing, and a dirtree before any commit is fatal; but a
second commit while Importing is not fatal as the claim states: the source
match arm for metadata objects shadows the multiple-commits arm, so the
second commit is written via import_metadata and the import succeeds,
committing both commit objects. -/
theorem import_second_commit_accepted :
    processEntry initImporter commitEntry1 =
      .ok { state := .Importing csum1, xattrs := [], next_xattrs := none,
            written := [(.Commit, csum1, ⟨OSTREE_COMMIT_FORMAT, [1, 2]⟩)] } ∧
    isErr (processEntry initImporter dirtreeEntry3) = true ∧
    (import_tarball emptyRepo [commitEntry1, commitEntry2]).1 = .ok csum1 ∧
    (import_tarball emptyRepo [commitEntry1, commitEntry2]).2.committed =
      [(.Commit, csum1, ⟨OSTREE_COMMIT_FORMAT, [1, 2]⟩),
       (.Commit, csum2, ⟨OSTREE_COMMIT_FORMAT, [3, 4]⟩)] := by
  refine ⟨by decide, by decide, by decide, by decide⟩

/-- Claim C4: the claim says exporter and importer agree on object paths of
the form sysroot/ostree/repo/objects/xx/rest.suffix. The exporter instead
emits ./ostree/repo/objects/xx/rest, without the sysroot prefix and without
any type suffix; feeding the exporter-written commit entry back to the
importer leaves it ignored, so the import finds no commit object at all. -/
theorem export_object_path_mismatch :
    (emptyMetadataWriter.append .Commit csum1 ⟨OSTREE_COMMIT_FORMAT, [1, 2]⟩).map
        (fun w => w.entries.map TarOut.path) =
      .ok ["./ostree/repo/objects/aa/" ++ rest0] ∧
    (("./ostree/repo/objects/aa/" ++ rest0) ==
      ("sysroot/ostree/repo/objects/aa/" ++ rest0 ++ ".commit")) = false ∧
    (import_tarball emptyRepo
        [{ path := pathComponents ("./ostree/repo/objects/aa/" ++ rest0),
           entry_type := .Regular, size := 2, content := [1, 2], link_name := none }]).1 =
      .error "Failed to find a commit object to import" := by
  refine ⟨by decide, by decide, by decide⟩

/-- Claim C5: the claim says exactly 256 placeholder directories, one per
shard prefix 00 through ff. The source loop runs over the half-open range
0..0xFF with the format string set to 0x-prefixed hex, so it emits 255
entries named ./ostree/repo/objects/0x00 up to 0xfe: the ff shard is missing
and no entry uses a bare two-digit name. -/
theorem placeholder_dirs_off_by_one :
    pre_created_object_dirs.length = 255 ∧
    ((pre_created_object_dirs.map TarOut.path).contains "./ostree/repo/objects/0xff") = false ∧
    pre_created_object_dirs.head?.map TarOut.path = some "./ostree/repo/objects/0x00" ∧
    (pre_created_object_dirs.getLast?).map TarOut.path = some "./ostree/repo/objects/0xfe" ∧
    ((pre_created_object_dirs.map TarOut.path).contains "./ostree/repo/objects/00") = false := by
  refine ⟨by decide, by decide, by decide, by decide, by decide⟩

/-- Claim C6: the claim says the importer recognises commitmeta as a
metadata object type and writes it via the metadata API. The source
objtype_from_string has no commitmeta arm, so a commitmeta entry is rejected
as an invalid object type even in state Importing. -/
theorem commitmeta_not_recognised :
    objtype_from_string "commitmeta" = none ∧
    importingImporter.import_object commitmetaEntry3 ["cc", rest2 ++ ".commitmeta"] =
      .error "Invalid object type commitmeta" := by
  refine ⟨rfl, by decide⟩

/-- Claim C2 counterexample: when the tar stream ends without any commit
object, import_tarball returns an error, yet Importer::commit has already
committed the transaction before checking the state, so the transaction is
committed and never aborted on this path. -/
theorem import_tarball_eof_error_commits :
    (import_tarball emptyRepo []).1 = .error "Failed to find a commit object to import" ∧
    (import_tarball emptyRepo []).2.txnCommitted = true ∧
    (import_tarball emptyRepo []).2.txnAborted = false := by
  refine ⟨rfl, rfl, rfl⟩

/-- Claim C2, amended: whenever import_tarball returns an error, the refs of
the destination repository are unchanged; the transaction has been aborted
and not committed for every error raised while processing entries, while on
the stream-ended-without-commit path the transaction has been committed
before the error is returned. -/
theorem import_tarball_error_transaction (repo : Repo) (entries : List TarEntry)
    (e : String) (hCom : repo.txnCommitted = false)
    (herr : (import_tarball repo entries).1 = .error e) :
    (import_tarball repo entries).2.refs = repo.refs ∧
    (((import_tarball repo entries).2.txnAborted = true ∧
        (import_tarball repo entries).2.txnCommitted = false) ∨
      (e = "Failed to find a commit object to import" ∧
        (import_tarball repo entries).2.txnCommitted = true)) := by
  unfold import_tarball at herr ⊢
  rcases h : runEntries initImporter entries with ⟨imp, me⟩
  rw [h] at herr
  rcases me with _ | msg
  · rcases hs : imp.state with _ | c
    · simp only [hs] at herr ⊢
      injection herr with he
      refine ⟨?_, Or.inr ⟨he.symm, ?_⟩⟩ <;>
        simp [abort_transaction, commit_transaction, stage_writes, prepare_transaction]
    · simp only [hs] at herr
      exact Except.noConfusion herr
  · refine ⟨?_, Or.inl ⟨?_, ?_⟩⟩ <;>
      simp [abort_transaction, stage_writes, prepare_transaction, hCom]

/-- Witness for the amended claim C2 at the empty tar stream. -/
theorem import_tarball_error_transaction_witness :
    (import_tarball emptyRepo []).2.refs = emptyRepo.refs ∧
    (((import_tarball emptyRepo []).2.txnAborted = true ∧
        (import_tarball emptyRepo []).2.txnCommitted = false) ∨
      ("Failed to find a commit object to import" =
          "Failed to find a commit object to import" ∧
        (import_tarball emptyRepo []).2.txnCommitted = true)) :=
  import_tarball_error_transaction emptyRepo []
    "Failed to find a commit object to import" rfl rfl

/-- Claim C7: the importer rejects every checksum string outside the 64
lowercase hex alphabet, rejects every metadata entry that is non-regular or
larger than 10 MiB, and rejects every xattr blob entry larger than 1 MiB. -/
theorem import_format_floors :
    (∀ s : String, validate_sha256 s = .ok () ↔ sha256Matches s = true) ∧
    (∀ (entry : TarEntry) (desc : String),
        entry.entry_type ≠ .Regular ∨ 10 * 1024 * 1024 < entry.size →
        isErr (validate_metadata_header entry desc) = true) ∧
    (∀ (imp : Importer) (entry : TarEntry),
        MAX_XATTR_SIZE < entry.size →
        isErr (imp.import_xattrs entry) = true) := by
  refine ⟨?_, ?_, ?_⟩
  · intro s
    unfold validate_sha256 sha256Matches
    by_cases h1 : s.length = 64 <;> by_cases h2 : s.toList.all isHexLower <;>
      simp [h1, h2]
  · intro entry desc h
    unfold validate_metadata_header
    by_cases ht : entry.entry_type = EntryType.Regular
    · rcases h with h | h
      · exact absurd ht h
      · simp [ht, isErr, h]
    · simp [ht, isErr]
  · intro imp entry h
    unfold Importer.import_xattrs
    rcases hs : imp.state with _ | c
    · simp [isErr]
    · rcases hp : entry.path.getLast? with _ | name
      · simp [isErr]
      · rcases hv : validate_sha256 name with e | u
        · simp [hv, isErr]
        · by_cases ht : entry.entry_type = EntryType.Regular <;>
            simp [hv, ht, isErr, h]

def bigMetaEntry : TarEntry :=
  { path := [], entry_type := .Regular, size := 10485761, content := [],
    link_name := none }

def bigXattrEntry : TarEntry :=
  { path := ["sysroot", "ostree", "repo", "xattrs", csum3],
    entry_type := .Regular, size := 1048577, content := [], link_name := none }

/-- Witness for claim C7 at concrete inputs: the empty checksum string, an
oversize metadata entry, and an oversize xattr blob entry. -/
theorem import_format_floors_witness :
    (validate_sha256 "" = .ok () ↔ sha256Matches "" = true) ∧
    isErr (validate_metadata_header bigMetaEntry "desc") = true ∧
    isErr (importingImporter.import_xattrs bigXattrEntry) = true :=
  ⟨import_format_floors.1 "",
   import_format_floors.2.1 bigMetaEntry "desc" (Or.inr (by decide)),
   import_format_floors.2.2 importingImporter bigXattrEntry (by decide)⟩

theorem layerWriteAll_uncompressed_hash (writes : List (List Nat × List Nat))
    (w : LayerWriter) :
    (layerWriteAll w writes).uncompressed_hash = w.uncompressed_hash := by
  induction writes generalizing w with
  | nil => rfl
  | cons p rest ih =>
    show (layerWriteAll (w.write p.1 p.2) rest).uncompressed_hash = _
    rw [ih]
    rfl

/-- Claim C8: the claim says the config diff_id digests the pre-gzip tar
bytes. LayerWriter::write never updates the uncompressed hasher, so for
every write sequence the diff_id is the SHA-256 of the empty byte string;
at the concrete input of one written byte the diff_id differs from the
digest of that byte; the manifest descriptor does carry the digest and size
of the on-disk compressed bytes as claimed. -/
theorem layer_diff_id_ignores_tar_bytes :
    (∀ (writes : List (List Nat × List Nat)) (flushed : List Nat),
        (ociWriterComplete
            ((layerWriteAll LayerWriter.new writes).complete flushed)).config_diff_ids_fed =
          [[]]) ∧
    ((ociWriterComplete
        ((LayerWriter.new.write [97] [31, 139]).complete [3])).config_diff_ids_fed ==
      [[97]]) = false ∧
    (ociWriterComplete
        ((LayerWriter.new.write [97] [31, 139]).complete [3])).manifest_layer_digest_fed =
      [31, 139, 3] ∧
    (ociWriterComplete
        ((LayerWriter.new.write [97] [31, 139]).complete [3])).manifest_layer_size = 3 := by
  refine ⟨?_, by decide, by decide, by decide⟩
  intro writes flushed
  simp [ociWriterComplete, LayerWriter.complete, layerWriteAll_uncompressed_hash,
        LayerWriter.new, Hasher.new]

/-- Claim C9: map_path rewrites exactly the paths whose components start
with the current directory followed by usr and etc, and returns every other
path unchanged; the three example paths of the claim behave as stated. -/
theorem map_path_rewrites_exactly_usr_etc :
    (∀ rest : List String,
        map_path ("." :: "usr" :: "etc" :: rest) = "." :: "etc" :: rest) ∧
    (∀ p : List String,
        (∀ rest, p ≠ "." :: "usr" :: "etc" :: rest) → map_path p = p) ∧
    map_path (pathComponents "./usr/etc/passwd") = pathComponents "./etc/passwd" ∧
    map_path (pathComponents "./") = pathComponents "./" ∧
    map_path (pathComponents "./usr/lib/x") = pathComponents "./usr/lib/x" := by
  refine ⟨fun rest => rfl, ?_, by decide, by decide, by decide⟩
  intro p h
  unfold map_path
  split
  · rename_i rest
    exact absurd rfl (h rest)
  · rfl

/-- Witness for claim C9: a path without the leading current-directory
component is untouched. -/
theorem map_path_rewrites_exactly_usr_etc_witness :
    map_path ["usr", "etc", "passwd"] = ["usr", "etc", "passwd"] :=
  map_path_rewrites_exactly_usr_etc.2.1 ["usr", "etc", "passwd"]
    (fun rest h => by simp at h)

def refRepo : Repo := { emptyRepo with refs := [("someref", csum1)] }

/-- Claim C10 counterexample: importing a commit whose checksum a
pre-existing ref already points at succeeds, and the returned checksum is
then pinned by that ref, against the claim that the returned checksum is
not pinned by any ref. -/
theorem import_returns_ref_pinned_checksum :
    (import_tarball refRepo [commitEntry1]).1 = .ok csum1 ∧
    ((import_tarball refRepo [commitEntry1]).2.refs.any fun p => p.2 == csum1) = true := by
  refine ⟨by decide, by decide⟩

/-- Claim C10, amended: import_tarball never creates or updates any ref, so
after a successful import the ref set equals the pre-import ref set and the
returned commit checksum is pinned by a ref exactly when it already was
before the import. -/
theorem import_tarball_refs_unchanged (repo : Repo) (entries : List TarEntry)
    (c : String) (hok : (import_tarball repo entries).1 = .ok c) :
    (import_tarball repo entries).2.refs = repo.refs ∧
    ((import_tarball repo entries).2.refs.any fun p => p.2 == c) =
      (repo.refs.any fun p => p.2 == c) := by
  have hrefs : (import_tarball repo entries).2.refs = repo.refs := by
    unfold import_tarball
    rcases h : runEntries initImporter entries with ⟨imp, me⟩
    rcases me with _ | msg
    · rcases hs : imp.state with _ | c' <;> simp only [hs] <;>
        simp [abort_transaction, commit_transaction, stage_writes, prepare_transaction]
    · simp [abort_transaction, stage_writes, prepare_transaction]
  exact ⟨hrefs, by rw [hrefs]⟩

/-- Witness for the amended claim C10 at a concrete single-commit import. -/
theorem import_tarball_refs_unchanged_witness :
    (import_tarball emptyRepo [commitEntry1]).2.refs = emptyRepo.refs ∧
    ((import_tarball emptyRepo [commitEntry1]).2.refs.any fun p => p.2 == csum1) =
      (emptyRepo.refs.any fun p => p.2 == csum1) :=
  import_tarball_refs_unchanged emptyRepo [commitEntry1] csum1 (by decide)

end OstreeContainer
